import Mathlib

/-!
Shallow embedding of the kvz_rtp receiver (`src/reader.cc`, `src/frame.hh`):
the RTP header parser, the payload-type dispatch, the frame-delivery
mechanism (receive hook or outgoing queue), the `pull_frame` wait loop and
the receive loop `frame_receiver`.  The format handlers
(`process_generic_frame`, `process_opus_frame`, `process_hevc_frame`) are
declared in headers that are not part of this repository snapshot; they are
modelled from the specification (§4.3–§4.5) and marked as such.

Byte buffers are `List Nat` with each entry read modulo 256 where the C code
reads a `uint8_t`.  Null pointers are `Option.none`.
-/

namespace KvzRtp

/-- `RTP_HEADER_SIZE` (= `HEADER_SIZE_RTP` in `frame.hh`): 12 bytes. -/
def RTP_HEADER_SIZE : Nat := 12

/-- Modelled from the spec: the Generic payload-type code (`util.hh` is not in
the snapshot; the concrete value is immaterial, only distinctness is used). -/
def RTP_FORMAT_GENERIC : Nat := 0

/-- Modelled from the spec: the Opus payload-type code. -/
def RTP_FORMAT_OPUS : Nat := 96

/-- Modelled from the spec: the HEVC payload-type code. -/
def RTP_FORMAT_HEVC : Nat := 97

/-- `rtp_error_t` values used by `reader.cc`. -/
inductive RtpError where
  | OK
  | NOT_READY
  | INVALID_VALUE
  deriving DecidableEq, Repr

/-- The fields of `kvz_rtp::frame::rtp_frame` that `reader.cc` populates:
marker, payload type, sequence number, timestamp, SSRC, the copied datagram
(`data`), the payload view (`data + RTP_HEADER_SIZE`), `payload_len` and
`total_len`. -/
structure RtpFrame where
  marker : Nat
  ptype : Nat
  seq : Nat
  timestamp : Nat
  ssrc : Nat
  data : List Nat
  payload : List Nat
  payload_len : Nat
  total_len : Nat
  deriving DecidableEq, Repr

/-- Header parsing done by `frame_receiver` (reader.cc lines 177–181, 188–191):
`marker = (inbuf[1] & 0x80) ? 1 : 0`, `ptype = inbuf[1] & 0x7f`,
`seq = ntohs(inbuf[2..3])`, `timestamp = ntohl(inbuf[4..7])`,
`ssrc = ntohl(inbuf[8..11])`; `data` is a copy of the whole datagram,
`payload` points `RTP_HEADER_SIZE` bytes into it. -/
def parseFrame (d : List Nat) : RtpFrame :=
  let b : Nat → Nat := fun i => d.getD i 0 % 256
  { marker := if 128 ≤ b 1 then 1 else 0
    ptype := b 1 % 128
    seq := b 2 * 256 + b 3
    timestamp := ((b 4 * 256 + b 5) * 256 + b 6) * 256 + b 7
    ssrc := ((b 8 * 256 + b 9) * 256 + b 10) * 256 + b 11
    data := d
    payload := d.drop RTP_HEADER_SIZE
    payload_len := d.length - RTP_HEADER_SIZE
    total_len := d.length }

/-- The HEVC fragmentation-reassembly context.  Modelled from the spec (§3):
an accumulated payload buffer and the last-seen sequence number. -/
structure FuCtx where
  buf : List Nat
  lastSeq : Nat
  deriving DecidableEq, Repr

/-- Modelled from the spec: `process_generic_frame` (§4.3) wraps the
post-RTP-header payload as one complete frame per datagram; a pure
pass-through that always succeeds.  Returns (delivered frame, new
fragmentation state, error code). -/
def process_generic_frame (f : RtpFrame) (fu : Option FuCtx) :
    Option RtpFrame × Option FuCtx × RtpError :=
  (some f, fu, RtpError.OK)

/-- Modelled from the spec: `process_opus_frame` (§4.4) is identical in shape
to the Generic handler, currently a no-op pass-through. -/
def process_opus_frame (f : RtpFrame) (fu : Option FuCtx) :
    Option RtpFrame × Option FuCtx × RtpError :=
  (some f, fu, RtpError.OK)

/-- Modelled from the spec: the NAL-unit-type code that marks a
fragmentation unit in the HEVC payload header (RFC 7798 FU). -/
def HEVC_FU_TYPE : Nat := 49

/-- Modelled from the spec: the NAL header synthesized for a reassembled
NAL unit — the outer HEVC RTP header's forbidden/layer/TID bits with the
type field replaced by the FU header's real NAL type (§4.5). -/
def reconstructNalHeader (b0 b1 realType : Nat) : List Nat :=
  [b0 / 128 % 2 * 128 + realType % 64 * 2 + b0 % 2, b1 % 256]

/-- Modelled from the spec: `process_hevc_frame` (§4.5).  The frame's payload
starts with the 2-byte HEVC RTP header; a NAL type other than the FU type is
a complete unit.  For a fragmentation unit the third payload byte is the FU
header (START bit 0x80, END bit 0x40, real NAL type in the low 6 bits) and
the fragment's payload bytes follow it.  START discards any live context and
seeds a new buffer with the reconstructed NAL header plus the fragment
payload; MIDDLE and END require a live context whose last-seen sequence
number is exactly one less (mod 2^16) and otherwise discard the context;
END converts the buffer into a delivered frame. -/
def process_hevc_frame (f : RtpFrame) (fu : Option FuCtx) :
    Option RtpFrame × Option FuCtx × RtpError :=
  let b0 := f.payload.getD 0 0 % 256
  let nalType := b0 / 2 % 64
  if nalType ≠ HEVC_FU_TYPE then
    (some f, fu, RtpError.OK)
  else
    let b1 := f.payload.getD 1 0 % 256
    let fuHdr := f.payload.getD 2 0 % 256
    let startBit := fuHdr / 128 % 2 = 1
    let endBit := fuHdr / 64 % 2 = 1
    let realType := fuHdr % 64
    let frag := f.payload.drop 3
    if startBit then
      (none, some ⟨reconstructNalHeader b0 b1 realType ++ frag, f.seq % 65536⟩,
        RtpError.NOT_READY)
    else if ¬ endBit then
      match fu with
      | some c =>
        if f.seq % 65536 = (c.lastSeq + 1) % 65536 then
          (none, some ⟨c.buf ++ frag, f.seq % 65536⟩, RtpError.NOT_READY)
        else
          (none, none, RtpError.NOT_READY)
      | none => (none, none, RtpError.NOT_READY)
    else
      match fu with
      | some c =>
        if f.seq % 65536 = (c.lastSeq + 1) % 65536 then
          (some { f with payload := c.buf ++ frag,
                         payload_len := (c.buf ++ frag).length },
            none, RtpError.OK)
        else
          (none, none, RtpError.NOT_READY)
      | none => (none, none, RtpError.NOT_READY)

/-- The payload-type dispatch of `frame_receiver` (reader.cc lines 200–217):
Opus, HEVC and Generic go to their handlers; any other payload type is
logged and yields `RTP_INVALID_VALUE`. -/
def dispatch (f : RtpFrame) (fu : Option FuCtx) :
    Option RtpFrame × Option FuCtx × RtpError :=
  if f.ptype = RTP_FORMAT_OPUS then process_opus_frame f fu
  else if f.ptype = RTP_FORMAT_HEVC then process_hevc_frame f fu
  else if f.ptype = RTP_FORMAT_GENERIC then process_generic_frame f fu
  else (none, fu, RtpError.INVALID_VALUE)

/-- `reader::add_outgoing_frame` (reader.cc lines 106–112): a null frame is
ignored, otherwise the frame is appended to `framesOut_`. -/
def add_outgoing_frame (q : List RtpFrame) (f : Option RtpFrame) : List RtpFrame :=
  match f with
  | none => q
  | some fr => q ++ [fr]

/-- The reader state touched by the receive loop: the `active_` flag, the
live fragmentation context (the `fu` vector of `frame_receiver`), the
outgoing queue `framesOut_`, whether a receive hook is installed, and the
frames passed to the hook. -/
structure LoopState where
  active : Bool
  fu : Option FuCtx
  framesOut : List RtpFrame
  hookInstalled : Bool
  hookCalls : List RtpFrame
  deliveredLog : List RtpFrame
  deriving DecidableEq, Repr

/-- All frames handed to the application so far, in completion order (a
ghost log fed by both delivery modes). -/
def delivered (st : LoopState) : List RtpFrame :=
  st.deliveredLog

/-- Frame delivery (reader.cc lines 222–225): the hook if installed,
otherwise `add_outgoing_frame`; the ghost log records the hand-off either
way. -/
def deliverFrame (st : LoopState) (fr : RtpFrame) : LoopState :=
  if st.hookInstalled then
    { st with hookCalls := st.hookCalls ++ [fr],
              deliveredLog := st.deliveredLog ++ [fr] }
  else
    { st with framesOut := add_outgoing_frame st.framesOut (some fr),
              deliveredLog := st.deliveredLog ++ [fr] }

/-- The tail of a receive-loop iteration (reader.cc lines 219–230): record
the handler's new fragmentation state, and deliver the returned frame when
the handler reported `RTP_OK` (`RTP_NOT_READY` and errors deliver
nothing). -/
def finishDatagram (st : LoopState) (r : Option RtpFrame × Option FuCtx × RtpError) :
    LoopState :=
  let st2 := { st with fu := r.2.1 }
  match r.2.2, r.1 with
  | RtpError.OK, some fr => deliverFrame st2 fr
  | _, _ => st2

/-- One iteration body of `frame_receiver` for a successfully received
datagram of `d.length` bytes (reader.cc lines 166–231): parse the header,
drop the datagram when `ret - RTP_HEADER_SIZE <= 0`, dispatch on the payload
type, and deliver the resulting frame when the handler reports `RTP_OK`. -/
def processDatagram (st : LoopState) (d : List Nat) : LoopState :=
  let f := parseFrame d
  if d.length ≤ RTP_HEADER_SIZE then st
  else finishDatagram st (dispatch f st.fu)

/-- Windows would-block error code; `frame_receiver` compares against it
only to decide whether to log (reader.cc line 160). -/
def WSAEWOULDBLOCK : Nat := 10035

/-- One result of the blocking `recvfrom` call: an error with its code, or a
datagram. -/
abbrev RecvResult : Type := Except Nat (List Nat)

/-- `frame_receiver` (reader.cc lines 136–235) over a schedule of receive
results: the loop runs while `reader->active()`; any `recvfrom` error makes
it return at once (the error code only selects logging), otherwise the
datagram is processed and the loop continues. -/
def frame_receiver : LoopState → List RecvResult → LoopState
  | st, [] => st
  | st, r :: rs =>
    if st.active then
      match r with
      | Except.error _ => st
      | Except.ok d => frame_receiver (processDatagram st d) rs
    else st

/-- `reader::pull_frame` (reader.cc lines 74–89) over the sequence of
(queue, active) states it observes at successive checks: while the queue is
empty and the reader active it sleeps and re-checks; on exit it returns null
if the reader is inactive and otherwise the queue's front.  The outer
`Option` distinguishes "returned" from "still waiting when the observation
schedule ran out". -/
def pull_frame_run : List (List RtpFrame × Bool) → Option (Option RtpFrame)
  | [] => none
  | (q, a) :: rest =>
    if q.isEmpty && a then pull_frame_run rest
    else if a then some q.head? else some none

/-- The hook-registration state of the reader: `recv_hook_` (null = none)
and `recv_hook_arg_`. -/
structure HookState where
  recv_hook : Option Nat
  recv_hook_arg : Option Nat
  deriving DecidableEq, Repr

/-- `reader::install_recv_hook` (reader.cc lines 119–128): a null function
pointer is rejected and the state is left unchanged; otherwise both the
hook and its argument are recorded. -/
def install_recv_hook (st : HookState) (arg : Option Nat) (hook : Option Nat) :
    HookState :=
  match hook with
  | none => st
  | some h => { recv_hook := some h, recv_hook_arg := arg }

/-- Primitive events of the queue operations, for the lock-discipline
claims: acquiring/releasing `frames_mtx_`, mutating `framesOut_`, reading
it, allocating, or doing I/O. -/
inductive QEvent where
  | lock
  | unlock
  | mutate
  | readq
  | alloc
  | io
  deriving DecidableEq, Repr

/-- The event trace of `reader::add_outgoing_frame` (reader.cc lines
106–112): the null check, then a bare `framesOut_.push_back(frame)` — no
lock operation appears in the function body. -/
def add_outgoing_frame_events (f : Option RtpFrame) : List QEvent :=
  match f with
  | none => []
  | some _ => [QEvent.mutate]

/-- The event trace of the dequeue section of `reader::pull_frame`
(reader.cc lines 83–86): `frames_mtx_.lock()`, read the front, erase it,
`frames_mtx_.unlock()`. -/
def pull_frame_dequeue_events : List QEvent :=
  [QEvent.lock, QEvent.readq, QEvent.mutate, QEvent.unlock]

/-- Every `mutate` event in the trace occurs while the lock depth is
positive. -/
def mutationsLocked : Nat → List QEvent → Bool
  | _, [] => true
  | d, QEvent.lock :: es => mutationsLocked (d + 1) es
  | d, QEvent.unlock :: es => mutationsLocked (d - 1) es
  | d, QEvent.mutate :: es => decide (0 < d) && mutationsLocked d es
  | d, _ :: es => mutationsLocked d es

/-- No `alloc` or `io` event in the trace occurs while the lock depth is
positive. -/
def lockAvoidsAllocIo : Nat → List QEvent → Bool
  | _, [] => true
  | d, QEvent.lock :: es => lockAvoidsAllocIo (d + 1) es
  | d, QEvent.unlock :: es => lockAvoidsAllocIo (d - 1) es
  | d, QEvent.alloc :: es => decide (d = 0) && lockAvoidsAllocIo d es
  | d, QEvent.io :: es => decide (d = 0) && lockAvoidsAllocIo d es
  | d, _ :: es => lockAvoidsAllocIo d es

/-- Repeatedly dequeue (`framesOut_.front()` then erase of the first
element, as `pull_frame` does) `n` times, collecting the returned frames. -/
def drainQueue : Nat → List RtpFrame → List RtpFrame
  | 0, _ => []
  | n + 1, q =>
    match q.head? with
    | none => []
    | some f => f :: drainQueue n q.tail

/-- The reader state right after `start()`: active, no live fragmentation
context, empty queue. -/
def initState (hook : Bool) : LoopState :=
  { active := true, fu := none, framesOut := [], hookInstalled := hook,
    hookCalls := [], deliveredLog := [] }

/-- The FU header byte: START bit 0x80, END bit 0x40, real NAL type in the
low six bits. -/
def fuHeaderByte (s e : Bool) (realType : Nat) : Nat :=
  (if s then 128 else 0) + (if e then 64 else 0) + realType % 64

/-- A well-formed RTP datagram for an HEVC fragmentation unit: 12-byte RTP
header with payload type `RTP_FORMAT_HEVC` and the given sequence number,
then the 2-byte HEVC payload header (FU type, TID 1), the FU header with the
given START/END bits and real NAL type, then the fragment payload. -/
def mkFuDatagram (seq : Nat) (s e : Bool) (realType : Nat) (payload : List Nat) :
    List Nat :=
  [128, RTP_FORMAT_HEVC, seq / 256 % 256, seq % 256, 0, 0, 0, 0, 0, 0, 0, 0,
    HEVC_FU_TYPE * 2, 1, fuHeaderByte s e realType] ++ payload

/-- MIDDLE fragment datagrams at consecutive sequence numbers starting at
`base`, one per payload in `mids`. -/
def fuMids (realType : Nat) : Nat → List (List Nat) → List RecvResult
  | _, [] => []
  | base, p :: ms =>
    Except.ok (mkFuDatagram base false false realType p) ::
      fuMids realType (base + 1) ms

/-- The fragment train of C1: a START fragment at `s0`, the middle fragment
payloads at strictly consecutive sequence numbers, and an END fragment. -/
def fuTrain (s0 : Nat) (realType : Nat) (ps : List Nat) (mids : List (List Nat))
    (pe : List Nat) : List RecvResult :=
  Except.ok (mkFuDatagram s0 true false realType ps) ::
    (fuMids realType (s0 + 1) mids ++
      [Except.ok (mkFuDatagram (s0 + 1 + mids.length) false true realType pe)])

/-! Evaluation lemmas for the embedding. -/

lemma length_mkFuDatagram (q : Nat) (s e : Bool) (rt : Nat) (p : List Nat) :
    (mkFuDatagram q s e rt p).length = p.length + 15 := by
  simp [mkFuDatagram]

lemma parse_mkFuDatagram (q : Nat) (s e : Bool) (rt : Nat) (p : List Nat) :
    parseFrame (mkFuDatagram q s e rt p) =
      { marker := 0, ptype := RTP_FORMAT_HEVC, seq := q % 65536, timestamp := 0,
        ssrc := 0, data := mkFuDatagram q s e rt p,
        payload := HEVC_FU_TYPE * 2 :: 1 :: fuHeaderByte s e rt :: p,
        payload_len := p.length + 3, total_len := p.length + 15 } := by
  simp only [parseFrame, mkFuDatagram, RTP_HEADER_SIZE, RTP_FORMAT_HEVC,
    HEVC_FU_TYPE]
  simp [RtpFrame.mk.injEq]
  omega

lemma delivered_deliverFrame (st : LoopState) (fr : RtpFrame) :
    delivered (deliverFrame st fr) = delivered st ++ [fr] := by
  by_cases h : st.hookInstalled <;> simp [deliverFrame, delivered, h]

lemma hevc_parsed_start (q rt : Nat) (p : List Nat) (fu : Option FuCtx)
    (hrt : rt < 64) :
    process_hevc_frame (parseFrame (mkFuDatagram q true false rt p)) fu =
      (none, some ⟨rt * 2 :: 1 :: p, q % 65536⟩, RtpError.NOT_READY) := by
  rw [parse_mkFuDatagram]
  have hfub : fuHeaderByte true false rt = 128 + rt := by
    simp [fuHeaderByte]; omega
  have h1 : (128 + rt) % 256 = 128 + rt := by omega
  have h2 : (128 + rt) / 128 % 2 = 1 := by omega
  have h3 : (128 + rt) % 64 = rt := by omega
  have hd : rt / 128 = 0 := Nat.div_eq_of_lt (by omega)
  have hm : rt % 64 = rt := Nat.mod_eq_of_lt (by omega)
  simp [process_hevc_frame, HEVC_FU_TYPE, reconstructNalHeader, hfub, h1, h2, h3,
    hd, hm]

lemma hevc_parsed_mid (q rt : Nat) (p buf : List Nat) (ls : Nat)
    (hrt : rt < 64) (hq : q % 65536 = (ls + 1) % 65536) :
    process_hevc_frame (parseFrame (mkFuDatagram q false false rt p))
        (some ⟨buf, ls⟩) =
      (none, some ⟨buf ++ p, q % 65536⟩, RtpError.NOT_READY) := by
  rw [parse_mkFuDatagram]
  have hfub : fuHeaderByte false false rt = rt := by
    simp [fuHeaderByte]; omega
  have h1 : rt % 256 = rt := by omega
  have h2 : rt / 128 % 2 = 0 := by omega
  have h3 : rt / 64 % 2 = 0 := by omega
  simp [process_hevc_frame, HEVC_FU_TYPE, hfub, h1, h2, h3, hq]

lemma hevc_parsed_end (q rt : Nat) (p buf : List Nat) (ls : Nat)
    (hrt : rt < 64) (hq : q % 65536 = (ls + 1) % 65536) :
    process_hevc_frame (parseFrame (mkFuDatagram q false true rt p))
        (some ⟨buf, ls⟩) =
      (some { parseFrame (mkFuDatagram q false true rt p) with
                payload := buf ++ p, payload_len := (buf ++ p).length },
        none, RtpError.OK) := by
  rw [parse_mkFuDatagram]
  have hfub : fuHeaderByte false true rt = 64 + rt := by
    simp [fuHeaderByte]; omega
  have h1 : (64 + rt) % 256 = 64 + rt := by omega
  have h2 : (64 + rt) / 128 % 2 = 0 := by omega
  have h3 : (64 + rt) / 64 % 2 = 1 := by omega
  have hd : rt / 128 = 0 := Nat.div_eq_of_lt (by omega)
  have hd2 : (rt / 64 + 1) % 2 = 1 := by omega
  have hd3 : 64 + rt < 128 := by omega
  simp [process_hevc_frame, HEVC_FU_TYPE, hfub, h1, h2, h3, hd, hd2,
    Nat.div_eq_of_lt hd3, hq]

lemma dispatch_hevc (f : RtpFrame) (fu : Option FuCtx)
    (hpt : f.ptype = RTP_FORMAT_HEVC) :
    dispatch f fu = process_hevc_frame f fu := by
  simp [dispatch, hpt, RTP_FORMAT_HEVC, RTP_FORMAT_OPUS]

lemma processDatagram_mkFu (st : LoopState) (q : Nat) (s e : Bool) (rt : Nat)
    (p : List Nat) :
    processDatagram st (mkFuDatagram q s e rt p) =
      finishDatagram st
        (process_hevc_frame (parseFrame (mkFuDatagram q s e rt p)) st.fu) := by
  have hlen : ¬ (mkFuDatagram q s e rt p).length ≤ RTP_HEADER_SIZE := by
    rw [length_mkFuDatagram]; simp [RTP_HEADER_SIZE]
  have hpt : (parseFrame (mkFuDatagram q s e rt p)).ptype = RTP_FORMAT_HEVC := by
    rw [parse_mkFuDatagram]
  simp [processDatagram, hlen, dispatch_hevc _ _ hpt]

lemma frame_receiver_ok (st : LoopState) (hact : st.active = true) (d : List Nat)
    (l : List RecvResult) :
    frame_receiver st (Except.ok d :: l) = frame_receiver (processDatagram st d) l := by
  simp [frame_receiver, hact]

lemma processDatagram_start (st : LoopState) (q rt : Nat) (p : List Nat)
    (hrt : rt < 64) :
    processDatagram st (mkFuDatagram q true false rt p) =
      { st with fu := some ⟨rt * 2 :: 1 :: p, q % 65536⟩ } := by
  rw [processDatagram_mkFu, hevc_parsed_start q rt p st.fu hrt]
  rfl

lemma processDatagram_mid (st : LoopState) (buf : List Nat) (ls q rt : Nat)
    (p : List Nat) (hfu : st.fu = some ⟨buf, ls⟩) (hrt : rt < 64)
    (hq : q % 65536 = (ls + 1) % 65536) :
    processDatagram st (mkFuDatagram q false false rt p) =
      { st with fu := some ⟨buf ++ p, q % 65536⟩ } := by
  rw [processDatagram_mkFu, hfu, hevc_parsed_mid q rt p buf ls hrt hq]
  rfl

lemma processDatagram_end (st : LoopState) (buf : List Nat) (ls q rt : Nat)
    (p : List Nat) (hfu : st.fu = some ⟨buf, ls⟩) (hrt : rt < 64)
    (hq : q % 65536 = (ls + 1) % 65536) :
    processDatagram st (mkFuDatagram q false true rt p) =
      deliverFrame { st with fu := none }
        { parseFrame (mkFuDatagram q false true rt p) with
            payload := buf ++ p, payload_len := (buf ++ p).length } := by
  rw [processDatagram_mkFu, hfu, hevc_parsed_end q rt p buf ls hrt hq]
  rfl

lemma frame_receiver_mids (rt : Nat) (hrt : rt < 64) (mids : List (List Nat)) :
    ∀ (s : Nat) (buf : List Nat) (st : LoopState),
      st.active = true → st.fu = some ⟨buf, s % 65536⟩ →
      ∀ rest : List RecvResult,
        frame_receiver st (fuMids rt (s + 1) mids ++ rest) =
          frame_receiver
            { st with fu := some ⟨buf ++ mids.flatten, (s + mids.length) % 65536⟩ }
            rest := by
  induction mids with
  | nil =>
    intro s buf st hact hfu rest
    simp only [fuMids, List.flatten_nil, List.nil_append, List.append_nil,
      List.length_nil, Nat.add_zero]
    rw [← hfu]
  | cons p ms ih =>
    intro s buf st hact hfu rest
    simp only [fuMids, List.cons_append]
    rw [frame_receiver_ok st hact]
    rw [processDatagram_mid st buf (s % 65536) (s + 1) rt p hfu hrt (by omega)]
    rw [ih (s + 1) (buf ++ p)
      { st with fu := some ⟨buf ++ p, (s + 1) % 65536⟩ } hact rfl rest]
    have h1 : s + 1 + ms.length = s + (p :: ms).length := by simp; omega
    have h2 : buf ++ p ++ ms.flatten = buf ++ (p :: ms).flatten := by simp
    rw [h1, h2]

/-! Invariant machinery for the `payload_len > 0` delivery invariant. -/

def DeliveryInv (st : LoopState) : Prop :=
  (∀ f ∈ delivered st, 0 < f.payload_len) ∧ (∀ c, st.fu = some c → c.buf ≠ [])

lemma deliverFrame_fu (st : LoopState) (fr : RtpFrame) :
    (deliverFrame st fr).fu = st.fu := by
  by_cases h : st.hookInstalled <;> simp [deliverFrame, h]

lemma parseFrame_payload (d : List Nat) :
    (parseFrame d).payload = d.drop RTP_HEADER_SIZE := rfl

lemma parseFrame_payload_len (d : List Nat) :
    (parseFrame d).payload_len = d.length - RTP_HEADER_SIZE := rfl

lemma hevc_result_inv (f : RtpFrame) (fu : Option FuCtx)
    (hf : 0 < f.payload_len) (hfu : ∀ c, fu = some c → c.buf ≠ []) :
    (∀ fr, (process_hevc_frame f fu).1 = some fr → 0 < fr.payload_len) ∧
    (∀ c, (process_hevc_frame f fu).2.1 = some c → c.buf ≠ []) := by
  have hne : ∀ (l l' : List Nat), l ≠ [] → l ++ l' ≠ [] := by
    intro l l' h hx
    exact h (List.append_eq_nil.mp hx).1
  have hrec : ∀ (a b r fg : _), reconstructNalHeader a b r ++ fg ≠ [] := by
    intro a b r fg
    simp [reconstructNalHeader]
  cases fu with
  | none =>
    simp only [process_hevc_frame]
    split_ifs <;>
      refine ⟨fun fr hfr => ?_, fun c hc => ?_⟩ <;>
      first
        | exact hfr.elim
        | exact hc.elim
        | exact Option.noConfusion hfr
        | exact Option.noConfusion hc
        | (rw [← Option.some.inj hfr]; exact hf)
        | (rw [← Option.some.inj hc]; exact hrec _ _ _ _)
  | some c0 =>
    have hb : c0.buf ≠ [] := hfu c0 rfl
    have hb2 : 0 < c0.buf.length := List.length_pos.mpr hb
    simp only [process_hevc_frame]
    split_ifs <;>
      refine ⟨fun fr hfr => ?_, fun c hc => ?_⟩ <;>
      first
        | exact hfr.elim
        | exact hc.elim
        | exact Option.noConfusion hfr
        | exact Option.noConfusion hc
        | (rw [← Option.some.inj hfr]; exact hf)
        | (rw [← Option.some.inj hc]; exact hb)
        | (rw [← Option.some.inj hc]; exact hrec _ _ _ _)
        | (rw [← Option.some.inj hc]; exact hne _ _ hb)
        | (rw [← Option.some.inj hfr];
           show 0 < (c0.buf ++ List.drop 3 f.payload).length;
           rw [List.length_append]; omega)

lemma DeliveryInv_finishDatagram (st : LoopState)
    (r : Option RtpFrame × Option FuCtx × RtpError)
    (h : ∀ f ∈ delivered st, 0 < f.payload_len)
    (hof : ∀ fr, r.1 = some fr → 0 < fr.payload_len)
    (hfu : ∀ c, r.2.1 = some c → c.buf ≠ []) :
    DeliveryInv (finishDatagram st r) := by
  obtain ⟨of, fu2, err⟩ := r
  have hstep :
      finishDatagram st (of, fu2, err) = { st with fu := fu2 } ∨
      ∃ fr, of = some fr ∧
        finishDatagram st (of, fu2, err) = deliverFrame { st with fu := fu2 } fr := by
    cases err with
    | OK =>
      cases of with
      | none => exact Or.inl rfl
      | some fr => exact Or.inr ⟨fr, rfl, rfl⟩
    | NOT_READY => exact Or.inl rfl
    | INVALID_VALUE => exact Or.inl rfl
  rcases hstep with hs | ⟨fr, hofr, hs⟩
  · rw [hs]
    exact ⟨h, fun c hc => hfu c hc⟩
  · rw [hs]
    constructor
    · intro f hfm
      rw [delivered_deliverFrame] at hfm
      rcases List.mem_append.mp hfm with hl | hr
      · exact h f hl
      · rw [List.mem_singleton] at hr
        subst hr
        exact hof f hofr
    · intro c hc
      rw [deliverFrame_fu] at hc
      exact hfu c hc

lemma DeliveryInv_processDatagram (st : LoopState) (d : List Nat)
    (h : DeliveryInv st) : DeliveryInv (processDatagram st d) := by
  by_cases hlen : d.length ≤ RTP_HEADER_SIZE
  · have hpd : processDatagram st d = st := by simp [processDatagram, hlen]
    rw [hpd]; exact h
  · have hpd : processDatagram st d =
        finishDatagram st (dispatch (parseFrame d) st.fu) := by
      simp [processDatagram, hlen]
    rw [hpd]
    have hplen : 0 < (parseFrame d).payload_len := by
      rw [parseFrame_payload_len]
      simp only [RTP_HEADER_SIZE] at hlen ⊢
      omega
    unfold dispatch
    split_ifs with h1 h2 h3
    · refine DeliveryInv_finishDatagram st _ h.1 ?_ (fun c hc => h.2 c hc)
      intro fr hfr
      have h4 : some (parseFrame d) = some fr := hfr
      rw [← Option.some.inj h4]
      exact hplen
    · exact DeliveryInv_finishDatagram st _ h.1
        (hevc_result_inv (parseFrame d) st.fu hplen h.2).1
        (hevc_result_inv (parseFrame d) st.fu hplen h.2).2
    · refine DeliveryInv_finishDatagram st _ h.1 ?_ (fun c hc => h.2 c hc)
      intro fr hfr
      have h4 : some (parseFrame d) = some fr := hfr
      rw [← Option.some.inj h4]
      exact hplen
    · refine DeliveryInv_finishDatagram st _ h.1 ?_ (fun c hc => h.2 c hc)
      intro fr hfr
      exact Option.noConfusion hfr

lemma DeliveryInv_frame_receiver (rrs : List RecvResult) :
    ∀ st : LoopState, DeliveryInv st → DeliveryInv (frame_receiver st rrs) := by
  induction rrs with
  | nil => intro st h; exact h
  | cons r rs ih =>
    intro st h
    by_cases hact : st.active
    · cases r with
      | error e =>
        have hr : frame_receiver st (Except.error e :: rs) = st := by
          simp [frame_receiver, hact]
        rw [hr]; exact h
      | ok d =>
        rw [frame_receiver_ok st hact]
        exact ih _ (DeliveryInv_processDatagram st d h)
    · have hr : frame_receiver st (r :: rs) = st := by
        simp [frame_receiver, hact]
      rw [hr]; exact h

/-! The claims. -/

/-- C1: an HEVC FU train — START fragment, zero or more MIDDLE fragments,
and an END fragment with strictly consecutive 16-bit sequence numbers —
delivers exactly one frame whose payload is the reconstructed NAL header
followed by the fragments' payload bytes (minus FU header) in order;
and the concrete gap train 100, 101, 103(END) delivers zero frames. -/
theorem c1_hevc_fu_reassembly (s0 rt : Nat) (ps pe : List Nat)
    (mids : List (List Nat)) (hrt : rt < 64) :
    (delivered (frame_receiver (initState false) (fuTrain s0 rt ps mids pe))).map
        RtpFrame.payload =
      [reconstructNalHeader (HEVC_FU_TYPE * 2) 1 rt ++ (ps ++ mids.flatten ++ pe)] ∧
    delivered (frame_receiver (initState false)
      [Except.ok (mkFuDatagram 100 true false 19 [0xAA]),
       Except.ok (mkFuDatagram 101 false false 19 [0xBB]),
       Except.ok (mkFuDatagram 103 false true 19 [0xCC])]) = [] := by
  constructor
  · unfold fuTrain
    rw [frame_receiver_ok _ rfl]
    rw [processDatagram_start _ s0 rt ps hrt]
    rw [frame_receiver_mids rt hrt mids s0 (rt * 2 :: 1 :: ps) _ rfl rfl _]
    rw [frame_receiver_ok _ rfl]
    rw [processDatagram_end _ ((rt * 2 :: 1 :: ps) ++ mids.flatten)
      ((s0 + mids.length) % 65536) (s0 + 1 + mids.length) rt pe rfl hrt (by omega)]
    simp only [frame_receiver]
    rw [delivered_deliverFrame]
    simp [delivered, initState, reconstructNalHeader, HEVC_FU_TYPE,
      Nat.mod_eq_of_lt hrt]
  · decide

/-- C1 witness: the concrete train 100 (START, AA), 101 (middle, BB),
102 (END, CC) yields one frame with payload NAL-header ++ AA BB CC. -/
theorem c1_hevc_fu_reassembly_witness :
    (delivered (frame_receiver (initState false)
        (fuTrain 100 19 [0xAA] [[0xBB]] [0xCC]))).map RtpFrame.payload =
      [reconstructNalHeader (HEVC_FU_TYPE * 2) 1 19 ++
        ([0xAA] ++ [[0xBB]].flatten ++ [0xCC])] :=
  (c1_hevc_fu_reassembly 100 19 [0xAA] [0xCC] [[0xBB]] (by decide)).1

/-- C2: a single-packet Generic or Opus datagram longer than the 12-byte RTP
header delivers exactly one frame whose payload is the datagram's bytes from
offset 12 on, with payload length the datagram length minus 12. -/
theorem c2_single_packet_payload (st : LoopState) (d : List Nat)
    (hlen : RTP_HEADER_SIZE < d.length)
    (hp : (parseFrame d).ptype = RTP_FORMAT_OPUS ∨
          (parseFrame d).ptype = RTP_FORMAT_GENERIC) :
    delivered (processDatagram st d) = delivered st ++ [parseFrame d] ∧
    (parseFrame d).payload = d.drop RTP_HEADER_SIZE ∧
    (parseFrame d).payload_len = d.length - RTP_HEADER_SIZE := by
  refine ⟨?_, rfl, rfl⟩
  have hnl : ¬ d.length ≤ RTP_HEADER_SIZE := by omega
  have hpd : processDatagram st d =
      finishDatagram st (dispatch (parseFrame d) st.fu) := by
    simp [processDatagram, hnl]
  rw [hpd]
  rcases hp with hp | hp
  · have hdisp : dispatch (parseFrame d) st.fu =
        (some (parseFrame d), st.fu, RtpError.OK) := by
      simp [dispatch, hp, process_opus_frame]
    rw [hdisp]
    show delivered (deliverFrame { st with fu := st.fu } (parseFrame d)) = _
    rw [delivered_deliverFrame]
  · have hdisp : dispatch (parseFrame d) st.fu =
        (some (parseFrame d), st.fu, RtpError.OK) := by
      simp [dispatch, hp, RTP_FORMAT_OPUS, RTP_FORMAT_HEVC, RTP_FORMAT_GENERIC,
        process_generic_frame]
    rw [hdisp]
    show delivered (deliverFrame { st with fu := st.fu } (parseFrame d)) = _
    rw [delivered_deliverFrame]

/-- C2 witness: a concrete 14-byte Opus datagram. -/
theorem c2_single_packet_payload_witness :
    delivered (processDatagram (initState false)
        [128, 96, 0, 1, 0, 0, 0, 0, 0, 0, 0, 0, 0xDE, 0xAD]) =
      delivered (initState false) ++
        [parseFrame [128, 96, 0, 1, 0, 0, 0, 0, 0, 0, 0, 0, 0xDE, 0xAD]] ∧
    (parseFrame [128, 96, 0, 1, 0, 0, 0, 0, 0, 0, 0, 0, 0xDE, 0xAD]).payload =
      [128, 96, 0, 1, 0, 0, 0, 0, 0, 0, 0, 0, 0xDE, 0xAD].drop RTP_HEADER_SIZE ∧
    (parseFrame [128, 96, 0, 1, 0, 0, 0, 0, 0, 0, 0, 0, 0xDE, 0xAD]).payload_len =
      [128, 96, 0, 1, 0, 0, 0, 0, 0, 0, 0, 0, 0xDE, 0xAD].length -
        RTP_HEADER_SIZE :=
  c2_single_packet_payload (initState false)
    [128, 96, 0, 1, 0, 0, 0, 0, 0, 0, 0, 0, 0xDE, 0xAD]
    (by decide) (Or.inl (by decide))

/-- C3 counterexample: a would-block receive error alone terminates the
receive loop (the valid datagram queued after it is never processed, while
alone it would be delivered), and after a non-would-block error the
active-state query still reports active. -/
theorem c3_recv_error_counterexample :
    frame_receiver (initState false)
        [Except.error WSAEWOULDBLOCK,
         Except.ok [128, 0, 0, 1, 0, 0, 0, 0, 0, 0, 0, 0, 0xAB]] =
      initState false ∧
    delivered (frame_receiver (initState false)
        [Except.ok [128, 0, 0, 1, 0, 0, 0, 0, 0, 0, 0, 0, 0xAB]]) ≠ [] ∧
    (frame_receiver (initState false) [Except.error 9999]).active = true := by
  refine ⟨by decide, by decide, by decide⟩

/-- C3 amended: any receive error — would-block included — terminates the
receive loop at once and leaves the reader state unchanged; in particular
the active flag is not cleared, so the receiver still reports active. -/
theorem c3_recv_error_amended (st : LoopState) (e : Nat)
    (rest : List RecvResult) :
    frame_receiver st (Except.error e :: rest) = st := by
  by_cases h : st.active <;> simp [frame_receiver, h]

/-- C4: a datagram of at most 12 bytes changes nothing (no hook call, no
queue growth, loop continues), and every frame handed to the application in
any run from the post-start state has a strictly positive payload length. -/
theorem c4_short_datagram_and_positive_payload :
    (∀ (st : LoopState) (d : List Nat), d.length ≤ RTP_HEADER_SIZE →
        processDatagram st d = st) ∧
    (∀ (hook : Bool) (rrs : List RecvResult),
        ∀ f ∈ delivered (frame_receiver (initState hook) rrs),
          0 < f.payload_len) := by
  constructor
  · intro st d h
    simp [processDatagram, h]
  · intro hook rrs f hf
    have hinv : DeliveryInv (initState hook) := by
      constructor
      · intro g hg
        simp [delivered, initState] at hg
      · intro c hc
        exact Option.noConfusion hc
    exact (DeliveryInv_frame_receiver rrs _ hinv).1 f hf

/-- C4 witness: a 3-byte datagram is a no-op, and the frame delivered for a
13-byte generic datagram has positive payload length. -/
theorem c4_short_datagram_witness :
    processDatagram (initState false) [1, 2, 3] = initState false ∧
    0 < (parseFrame [128, 0, 0, 1, 0, 0, 0, 0, 0, 0, 0, 0, 0xAB]).payload_len := by
  constructor
  · exact c4_short_datagram_and_positive_payload.1 (initState false) [1, 2, 3]
      (by decide)
  · exact c4_short_datagram_and_positive_payload.2 false
      [Except.ok [128, 0, 0, 1, 0, 0, 0, 0, 0, 0, 0, 0, 0xAB]]
      (parseFrame [128, 0, 0, 1, 0, 0, 0, 0, 0, 0, 0, 0, 0xAB]) (by decide)

/-- C5: a datagram whose payload type is none of Opus, HEVC or Generic is
dropped — the reader state is unchanged — and the receive loop proceeds to
the next datagram. -/
theorem c5_unknown_ptype_dropped (st : LoopState) (d : List Nat)
    (rs : List RecvResult) (hlen : RTP_HEADER_SIZE < d.length)
    (hp1 : (parseFrame d).ptype ≠ RTP_FORMAT_OPUS)
    (hp2 : (parseFrame d).ptype ≠ RTP_FORMAT_HEVC)
    (hp3 : (parseFrame d).ptype ≠ RTP_FORMAT_GENERIC)
    (hact : st.active = true) :
    processDatagram st d = st ∧
    frame_receiver st (Except.ok d :: rs) = frame_receiver st rs := by
  have hnl : ¬ d.length ≤ RTP_HEADER_SIZE := by omega
  have hdisp : dispatch (parseFrame d) st.fu =
      (none, st.fu, RtpError.INVALID_VALUE) := by
    simp [dispatch, hp1, hp2, hp3]
  have hfin : finishDatagram st (none, st.fu, RtpError.INVALID_VALUE) = st := rfl
  have hpd : processDatagram st d = st := by
    simp only [processDatagram, hnl, if_false]
    rw [hdisp, hfin]
  exact ⟨hpd, by rw [frame_receiver_ok st hact, hpd]⟩

/-- C5 witness: payload type 55 with a 13-byte datagram. -/
theorem c5_unknown_ptype_dropped_witness :
    processDatagram (initState false)
        [128, 55, 0, 1, 0, 0, 0, 0, 0, 0, 0, 0, 0xAB] = initState false ∧
    frame_receiver (initState false)
        (Except.ok [128, 55, 0, 1, 0, 0, 0, 0, 0, 0, 0, 0, 0xAB] :: []) =
      frame_receiver (initState false) [] :=
  c5_unknown_ptype_dropped (initState false)
    [128, 55, 0, 1, 0, 0, 0, 0, 0, 0, 0, 0, 0xAB] []
    (by decide) (by decide) (by decide) (by decide) rfl

/-- C6: pull_frame returns null at any check where the receiver is inactive
(also after waiting), keeps waiting while the receiver is active and the
queue empty, and returns the queue's front frame once one is queued while
active. -/
theorem c6_pull_frame_blocking :
    (∀ (q : List RtpFrame) (rest : List (List RtpFrame × Bool)),
        pull_frame_run ((q, false) :: rest) = some none) ∧
    (∀ rest : List (List RtpFrame × Bool),
        pull_frame_run (([], true) :: rest) = pull_frame_run rest) ∧
    (∀ (f : RtpFrame) (q : List RtpFrame) (rest : List (List RtpFrame × Bool)),
        pull_frame_run ((f :: q, true) :: rest) = some (some f)) := by
  refine ⟨fun q rest => ?_, fun rest => ?_, fun f q rest => ?_⟩ <;>
    simp [pull_frame_run]

/-- C7: queue-mode delivery is FIFO — draining the queue after any sequence
of enqueues returns the frames in exactly insertion order. -/
theorem c7_queue_fifo (q0 fs : List RtpFrame) :
    drainQueue (q0 ++ fs).length
        (fs.foldl (fun q f => add_outgoing_frame q (some f)) q0) = q0 ++ fs := by
  have henq : ∀ (gs : List RtpFrame) (q : List RtpFrame),
      gs.foldl (fun r f => add_outgoing_frame r (some f)) q = q ++ gs := by
    intro gs
    induction gs with
    | nil => intro q; simp
    | cons g gs ih =>
      intro q
      rw [List.foldl_cons, ih]
      simp [add_outgoing_frame]
  have hdrain : ∀ l : List RtpFrame, drainQueue l.length l = l := by
    intro l
    induction l with
    | nil => rfl
    | cons g t ih => simp [drainQueue, ih]
  rw [henq, hdrain]

/-- C8: the dequeue in pull_frame mutates the queue under the lock and holds
it across no allocation or I/O, but the enqueue in add_outgoing_frame
mutates the queue with the lock depth still zero — the claimed lock
discipline fails on the enqueue side. -/
theorem c8_enqueue_without_lock :
    mutationsLocked 0 (add_outgoing_frame_events (some (parseFrame []))) =
      false ∧
    mutationsLocked 0 pull_frame_dequeue_events = true ∧
    lockAvoidsAllocIo 0 pull_frame_dequeue_events = true := by
  decide

/-- C9: install_recv_hook rejects a null function pointer leaving the hook
state unchanged, and records both the hook and its argument otherwise. -/
theorem c9_install_recv_hook_null_rejected :
    (∀ (st : HookState) (arg : Option Nat),
        install_recv_hook st arg none = st) ∧
    (∀ (st : HookState) (arg : Option Nat) (h : Nat),
        install_recv_hook st arg (some h) =
          { recv_hook := some h, recv_hook_arg := arg }) :=
  ⟨fun _ _ => rfl, fun _ _ _ => rfl⟩

/-- C10: add_outgoing_frame with a null frame leaves the queue unchanged. -/
theorem c10_add_outgoing_frame_null_noop (q : List RtpFrame) :
    add_outgoing_frame q none = q := rfl

end KvzRtp
